import Mathlib

/-!
Verification of the at-cryptoauth driver against its specification.

The development shallowly embeds the three source files
`src/command.rs`, `src/tngtls.rs` and `slot-config-helper.rs`:
byte buffers become `List Nat`, Rust `Result` becomes `Except`,
and the hardware collaborator (bus client / memory interface, whose
source is not part of the excerpt) is modelled as an environment of
responses, with the calls the driver issues recorded as a trace.
-/

deriving instance DecidableEq for Except

/-- Error kinds named by src/src/command.rs (`ErrorKind::BadParam`,
`ErrorKind::InvalidSize`); the error module itself is outside the excerpt,
only the two variants the embedded commands construct are needed. -/
inductive ErrorKind
  | BadParam
  | InvalidSize
  deriving DecidableEq

/-- Modelled from the spec: `Slot` (src/src/memory.rs is not part of the
excerpt). Sixteen logical slots 0x00–0x0f; spec section 3 tags each slot at
compile time as private-key-capable or not, and src/src/tngtls.rs names the
variants `PrivateKey00`..`PrivateKey06` and `Certificate09`..`Certificate0c`,
so slots 0x00–0x07 are the private-key-capable ones. -/
inductive Slot
  | PrivateKey00
  | PrivateKey01
  | PrivateKey02
  | PrivateKey03
  | PrivateKey04
  | PrivateKey05
  | PrivateKey06
  | PrivateKey07
  | Certificate08
  | Certificate09
  | Certificate0a
  | Certificate0b
  | Certificate0c
  | Certificate0d
  | Certificate0e
  | Certificate0f
  deriving DecidableEq, Fintype

/-- Numeric index of a slot (the Rust enum discriminant, `slot as u16`). -/
def Slot.index : Slot → Nat
  | .PrivateKey00 => 0x00
  | .PrivateKey01 => 0x01
  | .PrivateKey02 => 0x02
  | .PrivateKey03 => 0x03
  | .PrivateKey04 => 0x04
  | .PrivateKey05 => 0x05
  | .PrivateKey06 => 0x06
  | .PrivateKey07 => 0x07
  | .Certificate08 => 0x08
  | .Certificate09 => 0x09
  | .Certificate0a => 0x0a
  | .Certificate0b => 0x0b
  | .Certificate0c => 0x0c
  | .Certificate0d => 0x0d
  | .Certificate0e => 0x0e
  | .Certificate0f => 0x0f

/-- Modelled from the spec: `Slot::is_private_key` (src/src/memory.rs is not
part of the excerpt); true exactly for the private-key-capable slots
0x00–0x07 (the `PrivateKey` variants). -/
def Slot.is_private_key : Slot → Bool
  | .PrivateKey00 | .PrivateKey01 | .PrivateKey02 | .PrivateKey03
  | .PrivateKey04 | .PrivateKey05 | .PrivateKey06 | .PrivateKey07 => true
  | _ => false

/-- Modelled from the spec: `Size` (src/src/memory.rs is not part of the
excerpt). Length classifier for transfers; the numeric lengths are fixed by
the source array types in src/src/tngtls.rs: `[u8; Size::Word as usize]`
holds 4 bytes and `[u8; Size::Block as usize]` holds 32 bytes. -/
inductive Size
  | Word
  | Block
  deriving DecidableEq

/-- Byte length of a transfer size (`Size::len`). -/
def Size.len : Size → Nat
  | .Word => 4
  | .Block => 32

/-- Modelled from the spec: `Zone` (src/src/memory.rs is not part of the
excerpt); the closed set of memory regions with individual lock flags. -/
inductive Zone
  | Config
  | Data
  | OTP
  deriving DecidableEq

/-- Command opcodes of src/src/command.rs (`OpCode`), one constructor per
Rust variant. -/
inductive OpCode
  | CheckMac
  | DeriveKey
  | Info
  | GenDig
  | GenKey
  | HMac
  | Lock
  | Mac
  | Nonce
  | Pause
  | PrivWrite
  | Random
  | Read
  | Sign
  | UpdateExtra
  | Verify
  | Write
  | Ecdh
  | Counter
  | Sha
  | Aes
  | Kdf
  | SecureBoot
  | SelfTest
  deriving DecidableEq, Fintype

/-- The fixed opcode byte values of src/src/command.rs:131-180. -/
def OpCode.toByte : OpCode → Nat
  | .CheckMac => 0x28
  | .DeriveKey => 0x1C
  | .Info => 0x30
  | .GenDig => 0x15
  | .GenKey => 0x40
  | .HMac => 0x11
  | .Lock => 0x17
  | .Mac => 0x08
  | .Nonce => 0x16
  | .Pause => 0x01
  | .PrivWrite => 0x46
  | .Random => 0x1B
  | .Read => 0x02
  | .Sign => 0x41
  | .UpdateExtra => 0x20
  | .Verify => 0x45
  | .Write => 0x12
  | .Ecdh => 0x43
  | .Counter => 0x24
  | .Sha => 0x47
  | .Aes => 0x51
  | .Kdf => 0x56
  | .SecureBoot => 0x80
  | .SelfTest => 0x77

/-- ChipMode clock divider (src/src/command.rs:184-188). -/
inductive ClockDivider
  | Zero
  | One
  | Two
  deriving DecidableEq, Fintype

/-- The Rust discriminant (`div as usize`). -/
def ClockDivider.toNat : ClockDivider → Nat
  | .Zero => 0
  | .One => 1
  | .Two => 2

def EXEC_TIME_AES : List Nat := [27, 27, 27]

def EXEC_TIME_CHECKMAC : List Nat := [40, 40, 40]

def EXEC_TIME_COUNTER : List Nat := [25, 25, 25]

def EXEC_TIME_DERIVE_KEY : List Nat := [50, 50, 50]

def EXEC_TIME_ECDH : List Nat := [172, 75, 531]

def EXEC_TIME_GENDIG : List Nat := [35, 25, 35]

def EXEC_TIME_GENKEY : List Nat := [215, 115, 653]

def EXEC_TIME_INFO : List Nat := [5, 5, 5]

def EXEC_TIME_KDF : List Nat := [165, 165, 165]

def EXEC_TIME_LOCK : List Nat := [35, 35, 35]

def EXEC_TIME_MAC : List Nat := [55, 55, 55]

def EXEC_TIME_NONCE : List Nat := [20, 20, 20]

def EXEC_TIME_PRIVWRITE : List Nat := [50, 50, 50]

def EXEC_TIME_RANDOM : List Nat := [23, 23, 23]

def EXEC_TIME_READ : List Nat := [5, 5, 5]

def EXEC_TIME_SECUREBOOT : List Nat := [160, 80, 480]

def EXEC_TIME_SELFTEST : List Nat := [625, 250, 2324]

def EXEC_TIME_SHA : List Nat := [36, 42, 75]

def EXEC_TIME_SIGN : List Nat := [115, 220, 665]

def EXEC_TIME_UPDATE_EXTRA : List Nat := [10, 10, 10]

def EXEC_TIME_VERIFY : List Nat := [105, 295, 1085]

def EXEC_TIME_WRITE : List Nat := [45, 45, 45]

/-- Embeds `OpCode::execution_time` (src/src/command.rs:215-242): each
covered opcode indexes its `EXEC_TIME_*` array by the clock divider; the
source's wildcard arm (which covers exactly `HMac` and `Pause`, the two
variants with no match arm) returns `None`. -/
def OpCode.execution_time (op : OpCode) (div : ClockDivider) : Option Nat :=
  match op with
  | .CheckMac => some (EXEC_TIME_CHECKMAC.getD div.toNat 0)
  | .Counter => some (EXEC_TIME_COUNTER.getD div.toNat 0)
  | .DeriveKey => some (EXEC_TIME_DERIVE_KEY.getD div.toNat 0)
  | .Ecdh => some (EXEC_TIME_ECDH.getD div.toNat 0)
  | .GenDig => some (EXEC_TIME_GENDIG.getD div.toNat 0)
  | .GenKey => some (EXEC_TIME_GENKEY.getD div.toNat 0)
  | .Info => some (EXEC_TIME_INFO.getD div.toNat 0)
  | .Lock => some (EXEC_TIME_LOCK.getD div.toNat 0)
  | .Mac => some (EXEC_TIME_MAC.getD div.toNat 0)
  | .Nonce => some (EXEC_TIME_NONCE.getD div.toNat 0)
  | .PrivWrite => some (EXEC_TIME_PRIVWRITE.getD div.toNat 0)
  | .Random => some (EXEC_TIME_RANDOM.getD div.toNat 0)
  | .Read => some (EXEC_TIME_READ.getD div.toNat 0)
  | .Sign => some (EXEC_TIME_SIGN.getD div.toNat 0)
  | .UpdateExtra => some (EXEC_TIME_UPDATE_EXTRA.getD div.toNat 0)
  | .Verify => some (EXEC_TIME_VERIFY.getD div.toNat 0)
  | .Write => some (EXEC_TIME_WRITE.getD div.toNat 0)
  | .Sha => some (EXEC_TIME_SHA.getD div.toNat 0)
  | .Aes => some (EXEC_TIME_AES.getD div.toNat 0)
  | .Kdf => some (EXEC_TIME_KDF.getD div.toNat 0)
  | .SecureBoot => some (EXEC_TIME_SECUREBOOT.getD div.toNat 0)
  | .SelfTest => some (EXEC_TIME_SELFTEST.getD div.toNat 0)
  | .HMac => none
  | .Pause => none

/-- AES mode: Encrypt (src/src/command.rs:9). -/
def MODE_ENCRYPT : Nat := 0x00

/-- AES mode: Decrypt (src/src/command.rs:11). -/
def MODE_DECRYPT : Nat := 0x01

/-- SHA mode: initialization (src/src/command.rs:13). -/
def MODE_SHA256_START : Nat := 0x00

/-- SHA mode: add bytes to the context (src/src/command.rs:15). -/
def MODE_SHA256_UPDATE : Nat := 0x01

/-- SHA mode: complete and return the digest (src/src/command.rs:17). -/
def MODE_SHA256_END : Nat := 0x02

/-- Modelled from the spec: the packet builder (src/src/packet.rs is not part
of the excerpt). Spec section 4.2: the builder accumulates opcode,
mode/param1, param2 and an optional payload, and `build()` is infallible by
construction; the embedded commands only need the accumulated fields, not
the final byte frame. `pduLength` records a `pdu_length(n)` override. -/
structure Packet where
  opcode : OpCode
  mode : Nat
  param2 : Nat
  pduData : List Nat
  pduLength : Option Nat
  deriving DecidableEq

/-- Boolean success test for a command construction result. -/
def builtOk (r : Except ErrorKind Packet) : Bool :=
  match r with
  | Except.ok _ => true
  | Except.error _ => false

/-- Embeds `Sha::start` (src/src/command.rs:325-328). -/
def Sha.start : Except ErrorKind Packet :=
  Except.ok { opcode := OpCode.Sha, mode := MODE_SHA256_START,
              param2 := 0, pduData := [], pduLength := none }

/-- Embeds `Sha::update` (src/src/command.rs:331-343): data of 64 or more
bytes is rejected with `ErrorKind::BadParam`; otherwise a SHA update packet
is built. -/
def Sha.update (data : List Nat) : Except ErrorKind Packet :=
  if 64 ≤ data.length then Except.error ErrorKind.BadParam
  else
    Except.ok { opcode := OpCode.Sha, mode := MODE_SHA256_UPDATE,
                param2 := 0, pduData := data, pduLength := none }

/-- Embeds `Sha::end` (src/src/command.rs:346-349). -/
def Sha.finish : Except ErrorKind Packet :=
  Except.ok { opcode := OpCode.Sha, mode := MODE_SHA256_END,
              param2 := 0, pduData := [], pduLength := none }

/-- Embeds `Aes::encrypt` (src/src/command.rs:359-379): a slot that is not
private-key-capable is rejected with `ErrorKind::BadParam`; then the source
checks `plaintext.len() > 16` (not `!= 16`) before rejecting with
`ErrorKind::InvalidSize`, so payloads shorter than 16 bytes pass the check. -/
def Aes.encrypt (slot : Slot) (plaintext : List Nat) : Except ErrorKind Packet :=
  if slot.is_private_key = false then Except.error ErrorKind.BadParam
  else if 16 < plaintext.length then Except.error ErrorKind.InvalidSize
  else
    Except.ok { opcode := OpCode.Aes, mode := MODE_ENCRYPT,
                param2 := slot.index, pduData := plaintext, pduLength := some 16 }

/-- Embeds `Aes::decrypt` (src/src/command.rs:382-402): a slot that is not
private-key-capable is rejected with `ErrorKind::BadParam`; a ciphertext
whose length is not exactly 16 bytes is rejected with
`ErrorKind::InvalidSize`. -/
def Aes.decrypt (slot : Slot) (ciphertext : List Nat) : Except ErrorKind Packet :=
  if slot.is_private_key = false then Except.error ErrorKind.BadParam
  else if ciphertext.length ≠ 16 then Except.error ErrorKind.InvalidSize
  else
    Except.ok { opcode := OpCode.Aes, mode := MODE_DECRYPT,
                param2 := slot.index, pduData := ciphertext, pduLength := some 16 }

/-- Outcome of `Serial::try_from`, with Rust panics made explicit. -/
inductive SerialOutcome
  | ok (value : List Nat)
  | err (e : ErrorKind)
  | panicked
  deriving DecidableEq

/-- Embeds `Serial::try_from` (src/src/command.rs:74-85). A buffer of 9 or
more bytes is rejected with `ErrorKind::BadParam`. Any shorter buffer
reaches `value.as_mut().copy_from_slice(&buffer[0..4])` where `value` is
the 9-byte array: taking the slice `buffer[0..4]` panics when the buffer is
shorter than 4 bytes, and `copy_from_slice` panics whenever the source
length (4) differs from the destination length (9), so this statement
panics on every path that reaches it; the remaining statements (the slice
`buffer[8..13]` and the `Ok` return) are unreachable. -/
def Serial.tryFrom (buffer : List Nat) : SerialOutcome :=
  if 9 ≤ buffer.length then SerialOutcome.err ErrorKind.BadParam
  else if buffer.length < 4 then SerialOutcome.panicked
  else SerialOutcome.panicked

/-- The shipped provisioning SlotConfig table
`TrustAndGo::TNG_TLS_SLOT_CONFIG_DATA` (src/src/tngtls.rs:73-87), 32 bytes,
one little-endian 16-bit word per slot. -/
def TNG_TLS_SLOT_CONFIG_DATA : List Nat :=
  [0x85, 0x00,
   0x82, 0x00,
   0x85, 0x20, 0x85, 0x20, 0x85, 0x20,
   0x8f, 0x8f,
   0x8f, 0x0f,
   0xaf, 0x8f,
   0x0f, 0x0f,
   0x8f, 0x0f,
   0x0f, 0x8f,
   0x0f, 0x8f,
   0x0f, 0x8f,
   0x00, 0x00, 0x00, 0x00, 0xaf, 0x8f]

/-- The shipped chip-options word `TrustAndGo::TNG_TLS_CHIP_OPTIONS`
(src/src/tngtls.rs:89-92). -/
def TNG_TLS_CHIP_OPTIONS : List Nat := [0xff, 0xff, 0x60, 0x0e]

/-- The shipped provisioning KeyConfig table
`TrustAndGo::TNG_TLS_KEY_CONFIG_DATA` (src/src/tngtls.rs:94-108). -/
def TNG_TLS_KEY_CONFIG_DATA : List Nat :=
  [0x53, 0x00,
   0x53, 0x00,
   0x73, 0x00, 0x73, 0x00, 0x73, 0x00,
   0x1c, 0x00,
   0x7c, 0x00,
   0x3c, 0x00,
   0x3c, 0x00,
   0x1a, 0x00,
   0x1c, 0x00,
   0x10, 0x00,
   0x1c, 0x00,
   0x3c, 0x00, 0x3c, 0x00, 0x1c, 0x00]

/-- The diagnostic tool's copy of the SlotConfig table
(`slot_config::SLOT_CONFIG_DATA`, src/slot-config-helper.rs:4-22). -/
def SLOT_CONFIG_DATA : List Nat :=
  [0x85, 0x00,
   0x82, 0x00,
   0x85, 0x20,
   0x85, 0x20,
   0x85, 0x20,
   0x8f, 0x8f,
   0x8f, 0x0f,
   0xaf, 0x8f,
   0x0f, 0x0f,
   0x8f, 0x0f,
   0x0f, 0x8f,
   0x0f, 0x8f,
   0x0f, 0x8f,
   0x00, 0x00,
   0x00, 0x00,
   0xaf, 0x8f]

/-- The diagnostic tool's copy of the KeyConfig table
(`key_config::KEY_CONFIG_DATA`, src/slot-config-helper.rs:142-160). -/
def KEY_CONFIG_DATA : List Nat :=
  [0x53, 0x00,
   0x53, 0x00,
   0x73, 0x00,
   0x73, 0x00,
   0x73, 0x00,
   0x1c, 0x00,
   0x7c, 0x00,
   0x3c, 0x00,
   0x3c, 0x00,
   0x1a, 0x00,
   0x1c, 0x00,
   0x10, 0x00,
   0x1c, 0x00,
   0x3c, 0x00,
   0x3c, 0x00,
   0x1c, 0x00]

/-- The 16-bit little-endian word of slot `i` in a configuration table
(`u16::from_le_bytes(data[2*i..2*i+2])`, as in the `permission` and
`key_config` helpers of src/src/tngtls.rs:290-308; out-of-range bytes,
never used here, default to 0). -/
def leWord (data : List Nat) (i : Nat) : Nat :=
  data.getD (2 * i) 0 + ((data.getD (2 * i + 1) 0) <<< 8)

/-- The `Provision` view of one slot (src/src/tngtls.rs:190-205):
its SlotConfig word (`permission`) and KeyConfig word (`key_config`),
both taken from the shipped TrustAndGo tables. -/
structure Provision where
  permission : Nat
  keyConfig : Nat
  deriving DecidableEq

/-- Embeds `Provision::new` (src/src/tngtls.rs:196-205) at a slot index. -/
def Provision.new (keyId : Nat) : Provision :=
  { permission := leWord TNG_TLS_SLOT_CONFIG_DATA keyId
    keyConfig := leWord TNG_TLS_KEY_CONFIG_DATA keyId }

/-- Embeds `Provision::is_private` (src/src/tngtls.rs:207-209). -/
def Provision.is_private (p : Provision) : Bool :=
  (p.keyConfig &&& 0x01) != 0x00

/-- Embeds `Provision::key_type` (src/src/tngtls.rs:211-213). -/
def Provision.key_type (p : Provision) : Nat :=
  (p.keyConfig >>> 2) &&& 0x07

/-- Embeds `Provision::read_key` (src/src/tngtls.rs:215-217). -/
def Provision.read_key (p : Provision) : Nat :=
  p.permission &&& 0x0f

/-- Embeds `Provision::encrypt_read` (src/src/tngtls.rs:219-221). -/
def Provision.encrypt_read (p : Provision) : Bool :=
  ((p.permission >>> 6) &&& 0x01) != 0x00

/-- Embeds `Provision::is_secret` (src/src/tngtls.rs:223-225). -/
def Provision.is_secret (p : Provision) : Bool :=
  ((p.permission >>> 7) &&& 0x01) != 0x00

/-- Embeds `Provision::write_config` (src/src/tngtls.rs:227-229). -/
def Provision.write_config (p : Provision) : Nat :=
  (p.permission >>> 12) &&& 0x0f

/-- Embeds `Provision::require_nonce` (src/src/tngtls.rs:252-254). -/
def Provision.require_nonce (p : Provision) : Bool :=
  ((p.keyConfig >>> 6) &&& 0x01) != 0x00

/-- Embeds `Provision::read_permission` (src/src/tngtls.rs:231-238); the
source's panicking `Prohibited` arm is modelled as `none`. -/
def Provision.read_permission (p : Provision) : Option String :=
  match p.is_secret, p.encrypt_read with
  | false, false => some "Clear text"
  | true, false => some "Never"
  | true, true => some "Encrypted"
  | _, _ => none

/-- Embeds `Provision::write_permission` (src/src/tngtls.rs:240-249), an
ordered match on the 4-bit write-config field alone; the source's panicking
`Prohibited` arm is modelled as `none`. -/
def Provision.write_permission (p : Provision) : Option String :=
  let x := p.write_config
  if x = 0x00 then some "Clear text"
  else if x = 0x01 then some "PubInvalid"
  else if x >>> 1 = 0x01 then some "Never"
  else if x >>> 2 = 0x02 then some "Never"
  else if (x >>> 2) &&& 0x01 = 0x01 then some "Encrypted"
  else none

/-- The named SlotConfig fields, one record field per bit field printed by
`slot_config::print` (src/slot-config-helper.rs:122-137). -/
structure SlotConfigFields where
  readKey : Nat
  noMac : Nat
  limitedUse : Nat
  encryptRead : Nat
  isSecret : Nat
  writeKey : Nat
  writeConfig : Nat
  deriving DecidableEq

/-- Embeds the SlotConfig field extraction of `slot_config::print`
(src/slot-config-helper.rs:122-137): read-key at bits 0-3, no-mac at bit 4,
limited-use at bit 5, encrypt-read at bit 6, is-secret at bit 7, write-key
at bits 8-11, write-config at bits 12-15. -/
def decodeSlotConfig (w : Nat) : SlotConfigFields :=
  { readKey := w &&& 0xf
    noMac := (w >>> 4) &&& 0x1
    limitedUse := (w >>> 5) &&& 0x1
    encryptRead := (w >>> 6) &&& 0x1
    isSecret := (w >>> 7) &&& 0x1
    writeKey := (w >>> 8) &&& 0xf
    writeConfig := (w >>> 12) &&& 0xf }

/-- Modelled from the spec: the repository has no SlotConfig encoder, and
spec sections 2 and 3 say the SlotPermissionModel both decodes and encodes
the 16-bit word with fields read-key (4 bits), no-mac (1), limited-use (1),
encrypt-read (1), is-secret (1), write-key (4), write-config (4); each field
is placed back at the bit position `decodeSlotConfig` reads it from. -/
def encodeSlotConfig (f : SlotConfigFields) : Nat :=
  f.readKey ||| (f.noMac <<< 4) ||| (f.limitedUse <<< 5) ||| (f.encryptRead <<< 6) |||
    (f.isSecret <<< 7) ||| (f.writeKey <<< 8) ||| (f.writeConfig <<< 12)

/-- The named KeyConfig fields of spec section 3. -/
structure KeyConfigFields where
  isPrivate : Nat
  pubInfo : Nat
  keyType : Nat
  lockable : Nat
  reqRandom : Nat
  reqAuth : Nat
  authKey : Nat
  persistentDisable : Nat
  x509id : Nat
  deriving DecidableEq

/-- Modelled from the spec: the KeyConfig decoder. The driver's own decode
(`Provision` in src/src/tngtls.rs) fixes private at bit 0, key-type at bits
2-4 and req-random at bit 6; the remaining positions follow spec section 3's
KeyConfig field list (pub-info 1 bit, lockable 1 bit, req-auth 1 bit,
auth-key-id 4 bits, persistent-disable 1 bit, x509id 2 bits) laid out in
order; bit 13 is reserved and belongs to no field. -/
def decodeKeyConfig (w : Nat) : KeyConfigFields :=
  { isPrivate := w &&& 0x1
    pubInfo := (w >>> 1) &&& 0x1
    keyType := (w >>> 2) &&& 0x7
    lockable := (w >>> 5) &&& 0x1
    reqRandom := (w >>> 6) &&& 0x1
    reqAuth := (w >>> 7) &&& 0x1
    authKey := (w >>> 8) &&& 0xf
    persistentDisable := (w >>> 12) &&& 0x1
    x509id := (w >>> 14) &&& 0x3 }

/-- Modelled from the spec: the KeyConfig encoder matching
`decodeKeyConfig`, placing each named field back at its bit position. -/
def encodeKeyConfig (f : KeyConfigFields) : Nat :=
  f.isPrivate ||| (f.pubInfo <<< 1) ||| (f.keyType <<< 2) ||| (f.lockable <<< 5) |||
    (f.reqRandom <<< 6) ||| (f.reqAuth <<< 7) ||| (f.authKey <<< 8) |||
    (f.persistentDisable <<< 12) ||| (f.x509id <<< 14)

/-- Modelled from the spec: `Memory::SLOT_CONFIG_INDEX` (src/src/client.rs is
not part of the excerpt); spec section 6 and the source comment at
src/src/tngtls.rs:74 fix the SlotConfig table at Config-zone byte index
20..51. -/
def SLOT_CONFIG_INDEX : Nat := 20

/-- Modelled from the spec: `Memory::CHIP_OPTIONS_INDEX`; spec section 6 and
the source comment at src/src/tngtls.rs:90 fix the chip-options word at
Config-zone byte index 88..91. -/
def CHIP_OPTIONS_INDEX : Nat := 88

/-- Modelled from the spec: `Memory::KEY_CONFIG_INDEX`; spec section 6 and
the source comment at src/src/tngtls.rs:95 fix the KeyConfig table at
Config-zone byte index 96..127. -/
def KEY_CONFIG_INDEX : Nat := 96

/-- Modelled from the spec: `Zone::locate_index` (src/src/memory.rs is not
part of the excerpt), mapping a Config-zone byte index to (block, word
offset). Spec section 6 fixes index 20 to block 0 offset 5, index 88 to
block 2 offset 6 and index 96 to block 3 offset 0; with 32-byte blocks and
4-byte words that is `(index / 32, index % 32 / 4)`. The zone component the
caller discards (`let (block, offset, _) = ...`) is omitted. -/
def locateIndex (index : Nat) : Nat × Nat := (index / 32, (index % 32) / 4)

/-- One `write_config(size, block, offset, data)` request issued to the
memory collaborator. -/
structure WriteCall where
  size : Size
  block : Nat
  offset : Nat
  data : List Nat
  deriving DecidableEq

/-- A call issued by the driver to the memory collaborator: a lock query, a
Config-zone write, or a zone lock command. -/
inductive Call
  | isLocked (zone : Zone)
  | writeConfig (w : WriteCall)
  | lock (zone : Zone)
  deriving DecidableEq

/-- Modelled from the spec: the memory collaborator (src/src/client.rs is not
part of the excerpt) as an environment of responses — one result per lock
query, per Config write and per lock command. A client state is a choice of
such responses; the driver's behaviour is a function of them. -/
structure Env where
  isLockedResult : Zone → Except ErrorKind Bool
  writeResult : WriteCall → Except ErrorKind Unit
  lockResult : Zone → Except ErrorKind Unit

/-- The eight Word-sized `write_config` requests `configure_permissions`
builds from the SlotConfig table: chunk `i` of 4 bytes goes to the location
of Config-zone index `SLOT_CONFIG_INDEX + i * 4` (src/src/tngtls.rs:118-130). -/
def slotConfigWriteCalls : List WriteCall :=
  (List.range 8).map fun i =>
    { size := Size.Word
      block := (locateIndex (SLOT_CONFIG_INDEX + i * Size.Word.len)).1
      offset := (locateIndex (SLOT_CONFIG_INDEX + i * Size.Word.len)).2
      data := (TNG_TLS_SLOT_CONFIG_DATA.drop (i * Size.Word.len)).take Size.Word.len }

/-- The Word-sized chip-options `write_config` request
(src/src/tngtls.rs:133-138). -/
def chipOptionsWriteCall : WriteCall :=
  { size := Size.Word
    block := (locateIndex CHIP_OPTIONS_INDEX).1
    offset := (locateIndex CHIP_OPTIONS_INDEX).2
    data := TNG_TLS_CHIP_OPTIONS }

/-- The Block-sized KeyConfig `write_config` request
(src/src/tngtls.rs:141-146). -/
def keyConfigWriteCall : WriteCall :=
  { size := Size.Block
    block := (locateIndex KEY_CONFIG_INDEX).1
    offset := (locateIndex KEY_CONFIG_INDEX).2
    data := TNG_TLS_KEY_CONFIG_DATA }

/-- Issues a list of `write_config` requests in order, stopping at the first
failing response (the `try_for_each` of src/src/tngtls.rs:119-129); returns
the overall result and the trace of calls actually issued. -/
def writeEach (env : Env) : List WriteCall → Except ErrorKind Unit × List Call
  | [] => (Except.ok (), [])
  | w :: ws =>
    match env.writeResult w with
    | Except.error e => (Except.error e, [Call.writeConfig w])
    | Except.ok _ =>
      let rest := writeEach env ws
      (rest.1, Call.writeConfig w :: rest.2)

/-- Embeds `TrustAndGo::configure_permissions` (src/src/tngtls.rs:118-130). -/
def TrustAndGo.configure_permissions (env : Env) : Except ErrorKind Unit × List Call :=
  writeEach env slotConfigWriteCalls

/-- Embeds `TrustAndGo::configure_chip_options` (src/src/tngtls.rs:133-138). -/
def TrustAndGo.configure_chip_options (env : Env) : Except ErrorKind Unit × List Call :=
  (env.writeResult chipOptionsWriteCall, [Call.writeConfig chipOptionsWriteCall])

/-- Embeds `TrustAndGo::configure_key_types` (src/src/tngtls.rs:141-146). -/
def TrustAndGo.configure_key_types (env : Env) : Except ErrorKind Unit × List Call :=
  (env.writeResult keyConfigWriteCall, [Call.writeConfig keyConfigWriteCall])

/-- The body of the config branch of `TrustAndGo::try_from`
(src/src/tngtls.rs:160-164): permissions, then chip options, then key
types, then the Config-zone lock, each step short-circuiting on failure
(the `?` operator). -/
def TrustAndGo.configPhase (env : Env) : Except ErrorKind Unit × List Call :=
  let p := TrustAndGo.configure_permissions env
  match p.1 with
  | Except.error e => (Except.error e, p.2)
  | Except.ok _ =>
    let c := TrustAndGo.configure_chip_options env
    match c.1 with
    | Except.error e => (Except.error e, p.2 ++ c.2)
    | Except.ok _ =>
      let k := TrustAndGo.configure_key_types env
      match k.1 with
      | Except.error e => (Except.error e, p.2 ++ c.2 ++ k.2)
      | Except.ok _ =>
        match env.lockResult Zone.Config with
        | Except.error e => (Except.error e, p.2 ++ c.2 ++ k.2 ++ [Call.lock Zone.Config])
        | Except.ok _ => (Except.ok (), p.2 ++ c.2 ++ k.2 ++ [Call.lock Zone.Config])

/-- Embeds `TrustAndGo::try_from` (src/src/tngtls.rs:156-175): query the
Config-zone lock; if unlocked run the configuration phase; then query the
Data-zone lock and (in a release build only, `debugAssertions = false`)
lock an unlocked Data zone. Returns the overall result and the ordered
trace of collaborator calls. -/
def TrustAndGo.tryFrom (env : Env) (debugAssertions : Bool) :
    Except ErrorKind Unit × List Call :=
  match env.isLockedResult Zone.Config with
  | Except.error e => (Except.error e, [Call.isLocked Zone.Config])
  | Except.ok configLocked =>
    let phase : Except ErrorKind Unit × List Call :=
      if configLocked then (Except.ok (), []) else TrustAndGo.configPhase env
    match phase.1 with
    | Except.error e => (Except.error e, Call.isLocked Zone.Config :: phase.2)
    | Except.ok _ =>
      match env.isLockedResult Zone.Data with
      | Except.error e =>
        (Except.error e, Call.isLocked Zone.Config :: phase.2 ++ [Call.isLocked Zone.Data])
      | Except.ok dataLocked =>
        if dataLocked = false ∧ debugAssertions = false then
          match env.lockResult Zone.Data with
          | Except.error e =>
            (Except.error e,
             Call.isLocked Zone.Config :: phase.2 ++ [Call.isLocked Zone.Data, Call.lock Zone.Data])
          | Except.ok _ =>
            (Except.ok (),
             Call.isLocked Zone.Config :: phase.2 ++ [Call.isLocked Zone.Data, Call.lock Zone.Data])
        else (Except.ok (), Call.isLocked Zone.Config :: phase.2 ++ [Call.isLocked Zone.Data])

/-- True exactly on `write_config` calls. -/
def isWriteCall : Call → Bool
  | Call.writeConfig _ => true
  | _ => false

/-- True exactly on the Config-zone lock command. -/
def isConfigLockCall : Call → Bool
  | Call.lock Zone.Config => true
  | _ => false

/-- The full planned call sequence of the configuration phase: the eight
SlotConfig writes, the chip-options write, the KeyConfig write, then the
Config-zone lock. -/
def plannedConfigCalls : List Call :=
  slotConfigWriteCalls.map Call.writeConfig ++
    [Call.writeConfig chipOptionsWriteCall, Call.writeConfig keyConfigWriteCall,
     Call.lock Zone.Config]

/-- The collaborator's response to one issued call, read off the
environment. -/
def callResult (env : Env) : Call → Except ErrorKind Unit
  | Call.isLocked zone => (env.isLockedResult zone).map fun _ => ()
  | Call.writeConfig w => env.writeResult w
  | Call.lock zone => env.lockResult zone

/-- An environment whose every response succeeds and which reports both
zones locked. -/
def envAllLocked : Env :=
  { isLockedResult := fun _ => Except.ok true
    writeResult := fun _ => Except.ok ()
    lockResult := fun _ => Except.ok () }

/-- An environment whose every response succeeds and which reports both
zones unlocked. -/
def envAllUnlocked : Env :=
  { isLockedResult := fun _ => Except.ok false
    writeResult := fun _ => Except.ok ()
    lockResult := fun _ => Except.ok () }

theorem writeEach_trace_take (env : Env) (ws : List WriteCall) :
    ∃ k ≤ ws.length, (writeEach env ws).2 = (ws.take k).map Call.writeConfig := by
  induction ws with
  | nil => exact ⟨0, Nat.le_refl 0, rfl⟩
  | cons w ws ih =>
    cases h : env.writeResult w with
    | error e =>
      refine ⟨1, by simp, ?_⟩
      simp [writeEach, h]
    | ok u =>
      obtain ⟨k, hk, ht⟩ := ih
      exact ⟨k + 1, by simpa using hk, by simp [writeEach, h, ht]⟩

theorem writeEach_ok_trace (env : Env) :
    ∀ ws : List WriteCall, (writeEach env ws).1 = Except.ok () →
      (writeEach env ws).2 = ws.map Call.writeConfig := by
  intro ws
  induction ws with
  | nil => intro _; rfl
  | cons w ws ih =>
    intro h
    cases hw : env.writeResult w with
    | error e => simp [writeEach, hw] at h
    | ok u =>
      have h' : (writeEach env ws).1 = Except.ok () := by
        simpa [writeEach, hw] using h
      simp [writeEach, hw, ih h']

theorem writeEach_all_ok (env : Env) :
    ∀ ws : List WriteCall, (∀ w ∈ ws, env.writeResult w = Except.ok ()) →
      writeEach env ws = (Except.ok (), ws.map Call.writeConfig) := by
  intro ws
  induction ws with
  | nil => intro _; rfl
  | cons w ws ih =>
    intro h
    have hw : env.writeResult w = Except.ok () := h w (List.mem_cons_self w ws)
    have hrest := ih fun x hx => h x (List.mem_cons_of_mem w hx)
    simp [writeEach, hw, hrest]

theorem plannedConfigCalls_take_of_le (k : Nat) (hk : k ≤ 8) :
    plannedConfigCalls.take k = (slotConfigWriteCalls.take k).map Call.writeConfig := by
  have h1 : k ≤ (slotConfigWriteCalls.map Call.writeConfig).length := by
    simp [slotConfigWriteCalls]; omega
  rw [plannedConfigCalls, List.take_append_of_le_length h1, List.map_take]

theorem configPhase_trace_take (env : Env) :
    ∃ k ≤ plannedConfigCalls.length,
      (TrustAndGo.configPhase env).2 = plannedConfigCalls.take k := by
  cases hp : (writeEach env slotConfigWriteCalls).1 with
  | error e =>
    obtain ⟨k, hk, ht⟩ := writeEach_trace_take env slotConfigWriteCalls
    have hk8 : k ≤ 8 := by simpa [slotConfigWriteCalls] using hk
    refine ⟨k, by simp [plannedConfigCalls, slotConfigWriteCalls]; omega, ?_⟩
    simp only [TrustAndGo.configPhase, TrustAndGo.configure_permissions, hp, ht,
      plannedConfigCalls_take_of_le k hk8]
  | ok u =>
    have hperm : (writeEach env slotConfigWriteCalls).2 =
        slotConfigWriteCalls.map Call.writeConfig := writeEach_ok_trace env _ hp
    cases hc : env.writeResult chipOptionsWriteCall with
    | error e =>
      refine ⟨9, by decide, ?_⟩
      simp only [TrustAndGo.configPhase, TrustAndGo.configure_permissions,
        TrustAndGo.configure_chip_options, hp, hc, hperm]
      decide
    | ok u2 =>
      cases hk2 : env.writeResult keyConfigWriteCall with
      | error e =>
        refine ⟨10, by decide, ?_⟩
        simp only [TrustAndGo.configPhase, TrustAndGo.configure_permissions,
          TrustAndGo.configure_chip_options, TrustAndGo.configure_key_types,
          hp, hc, hk2, hperm]
        decide
      | ok u3 =>
        cases hl : env.lockResult Zone.Config with
        | error e =>
          refine ⟨11, by decide, ?_⟩
          simp only [TrustAndGo.configPhase, TrustAndGo.configure_permissions,
            TrustAndGo.configure_chip_options, TrustAndGo.configure_key_types,
            hp, hc, hk2, hl, hperm]
          decide
        | ok u4 =>
          refine ⟨11, by decide, ?_⟩
          simp only [TrustAndGo.configPhase, TrustAndGo.configure_permissions,
            TrustAndGo.configure_chip_options, TrustAndGo.configure_key_types,
            hp, hc, hk2, hl, hperm]
          decide

theorem configPhase_all_writes_trace (env : Env)
    (hw : ∀ w ∈ slotConfigWriteCalls ++ [chipOptionsWriteCall, keyConfigWriteCall],
      env.writeResult w = Except.ok ()) :
    (TrustAndGo.configPhase env).2 = plannedConfigCalls := by
  have hp : writeEach env slotConfigWriteCalls =
      (Except.ok (), slotConfigWriteCalls.map Call.writeConfig) :=
    writeEach_all_ok env _ fun w hmem => hw w (List.mem_append_left _ hmem)
  have hc : env.writeResult chipOptionsWriteCall = Except.ok () :=
    hw _ (List.mem_append_right _ (by simp))
  have hk2 : env.writeResult keyConfigWriteCall = Except.ok () :=
    hw _ (List.mem_append_right _ (by simp))
  cases hl : env.lockResult Zone.Config with
  | error e =>
    simp only [TrustAndGo.configPhase, TrustAndGo.configure_permissions,
      TrustAndGo.configure_chip_options, TrustAndGo.configure_key_types,
      hp, hc, hk2, hl]
    decide
  | ok u =>
    simp only [TrustAndGo.configPhase, TrustAndGo.configure_permissions,
      TrustAndGo.configure_chip_options, TrustAndGo.configure_key_types,
      hp, hc, hk2, hl]
    decide

theorem writeEach_split (env : Env) (e : ErrorKind) :
    ∀ pre : List WriteCall, ∀ w : WriteCall, ∀ post : List WriteCall,
      (∀ x ∈ pre, env.writeResult x = Except.ok ()) →
      env.writeResult w = Except.error e →
      writeEach env (pre ++ w :: post) =
        (Except.error e, pre.map Call.writeConfig ++ [Call.writeConfig w]) := by
  intro pre
  induction pre with
  | nil =>
    intro w post _ hw
    simp [writeEach, hw]
  | cons x pre ih =>
    intro w post hpre hw
    have hx : env.writeResult x = Except.ok () := hpre x (List.mem_cons_self x pre)
    have hrest := ih w post (fun y hy => hpre y (List.mem_cons_of_mem x hy)) hw
    simp [writeEach, hx, hrest]

theorem configPhase_success (env : Env)
    (h : ∀ c ∈ plannedConfigCalls, callResult env c = Except.ok ()) :
    TrustAndGo.configPhase env = (Except.ok (), plannedConfigCalls) := by
  have hslots : ∀ w ∈ slotConfigWriteCalls, env.writeResult w = Except.ok () := by
    intro w hw
    simpa [callResult] using h (Call.writeConfig w)
      (show Call.writeConfig w ∈ plannedConfigCalls from
        List.mem_append_left _ (List.mem_map_of_mem _ hw))
  have hperm := writeEach_all_ok env slotConfigWriteCalls hslots
  have hchip : env.writeResult chipOptionsWriteCall = Except.ok () := by
    simpa [callResult] using h (Call.writeConfig chipOptionsWriteCall) (by decide)
  have hkey : env.writeResult keyConfigWriteCall = Except.ok () := by
    simpa [callResult] using h (Call.writeConfig keyConfigWriteCall) (by decide)
  have hlock : env.lockResult Zone.Config = Except.ok () := by
    simpa [callResult] using h (Call.lock Zone.Config) (by decide)
  simp only [TrustAndGo.configPhase, TrustAndGo.configure_permissions,
    TrustAndGo.configure_chip_options, TrustAndGo.configure_key_types,
    hperm, hchip, hkey, hlock]
  simp only [Prod.mk.injEq]
  exact ⟨trivial, by decide⟩

theorem configPhase_failure_stops (env : Env) (j : Nat) (e : ErrorKind)
    (hj : j < plannedConfigCalls.length)
    (hpre : ∀ c ∈ plannedConfigCalls.take j, callResult env c = Except.ok ())
    (hfail : callResult env (plannedConfigCalls.getD j (Call.lock Zone.Config)) =
      Except.error e) :
    TrustAndGo.configPhase env = (Except.error e, plannedConfigCalls.take (j + 1)) := by
  have hplen : plannedConfigCalls.length = 11 := by decide
  by_cases hj8 : j < 8
  · -- the failing step is the j-th SlotConfig write
    have hdecompAll : ∀ i < 8, slotConfigWriteCalls = slotConfigWriteCalls.take i ++
        slotConfigWriteCalls.getD i chipOptionsWriteCall ::
          slotConfigWriteCalls.drop (i + 1) := by decide
    have htakeAll : ∀ i < 8, plannedConfigCalls.take i =
        (slotConfigWriteCalls.take i).map Call.writeConfig := by decide
    have hgetAll : ∀ i < 8, plannedConfigCalls.getD i (Call.lock Zone.Config) =
        Call.writeConfig (slotConfigWriteCalls.getD i chipOptionsWriteCall) := by decide
    have htake1All : ∀ i < 8, plannedConfigCalls.take (i + 1) =
        (slotConfigWriteCalls.take i ++
          [slotConfigWriteCalls.getD i chipOptionsWriteCall]).map Call.writeConfig := by
      decide
    have hdecomp := hdecompAll j hj8
    have htake := htakeAll j hj8
    have hget := hgetAll j hj8
    have htake1 := htake1All j hj8
    have hpre' : ∀ x ∈ slotConfigWriteCalls.take j, env.writeResult x = Except.ok () := by
      intro x hx
      have hmem : Call.writeConfig x ∈ plannedConfigCalls.take j := by
        rw [htake]; exact List.mem_map_of_mem _ hx
      simpa [callResult] using hpre (Call.writeConfig x) hmem
    have hfail' : env.writeResult (slotConfigWriteCalls.getD j chipOptionsWriteCall) =
        Except.error e := by
      rw [hget] at hfail
      simpa [callResult] using hfail
    have hw := writeEach_split env e (slotConfigWriteCalls.take j)
      (slotConfigWriteCalls.getD j chipOptionsWriteCall)
      (slotConfigWriteCalls.drop (j + 1)) hpre' hfail'
    rw [← hdecomp] at hw
    simp only [TrustAndGo.configPhase, TrustAndGo.configure_permissions, hw]
    simp only [Prod.mk.injEq]
    refine ⟨trivial, ?_⟩
    rw [htake1]
    simp
  · rw [hplen] at hj
    have hj' : 8 ≤ j := by omega
    interval_cases j
    · -- the failing step is the chip-options write
      have hslots : ∀ w ∈ slotConfigWriteCalls, env.writeResult w = Except.ok () := by
        intro w hw
        have hmem : Call.writeConfig w ∈ plannedConfigCalls.take 8 := by
          have ht : plannedConfigCalls.take 8 =
              slotConfigWriteCalls.map Call.writeConfig := by decide
          rw [ht]; exact List.mem_map_of_mem _ hw
        simpa [callResult] using hpre _ hmem
      have hperm := writeEach_all_ok env slotConfigWriteCalls hslots
      have hfail' : env.writeResult chipOptionsWriteCall = Except.error e := by
        have hg : plannedConfigCalls.getD 8 (Call.lock Zone.Config) =
            Call.writeConfig chipOptionsWriteCall := by decide
        rw [hg] at hfail
        simpa [callResult] using hfail
      simp only [TrustAndGo.configPhase, TrustAndGo.configure_permissions,
        TrustAndGo.configure_chip_options, hperm, hfail']
      simp only [Prod.mk.injEq]
      exact ⟨trivial, by decide⟩
    · -- the failing step is the KeyConfig write
      have hslots : ∀ w ∈ slotConfigWriteCalls, env.writeResult w = Except.ok () := by
        intro w hw
        have hmem : Call.writeConfig w ∈ plannedConfigCalls.take 9 := by
          have ht : plannedConfigCalls.take 9 =
              slotConfigWriteCalls.map Call.writeConfig ++
                [Call.writeConfig chipOptionsWriteCall] := by decide
          rw [ht]; exact List.mem_append_left _ (List.mem_map_of_mem _ hw)
        simpa [callResult] using hpre _ hmem
      have hperm := writeEach_all_ok env slotConfigWriteCalls hslots
      have hchip : env.writeResult chipOptionsWriteCall = Except.ok () := by
        simpa [callResult] using hpre (Call.writeConfig chipOptionsWriteCall) (by decide)
      have hfail' : env.writeResult keyConfigWriteCall = Except.error e := by
        have hg : plannedConfigCalls.getD 9 (Call.lock Zone.Config) =
            Call.writeConfig keyConfigWriteCall := by decide
        rw [hg] at hfail
        simpa [callResult] using hfail
      simp only [TrustAndGo.configPhase, TrustAndGo.configure_permissions,
        TrustAndGo.configure_chip_options, TrustAndGo.configure_key_types,
        hperm, hchip, hfail']
      simp only [Prod.mk.injEq]
      exact ⟨trivial, by decide⟩
    · -- the failing step is the Config-zone lock
      have hslots : ∀ w ∈ slotConfigWriteCalls, env.writeResult w = Except.ok () := by
        intro w hw
        have hmem : Call.writeConfig w ∈ plannedConfigCalls.take 10 := by
          have ht : plannedConfigCalls.take 10 =
              slotConfigWriteCalls.map Call.writeConfig ++
                [Call.writeConfig chipOptionsWriteCall,
                 Call.writeConfig keyConfigWriteCall] := by decide
          rw [ht]; exact List.mem_append_left _ (List.mem_map_of_mem _ hw)
        simpa [callResult] using hpre _ hmem
      have hperm := writeEach_all_ok env slotConfigWriteCalls hslots
      have hchip : env.writeResult chipOptionsWriteCall = Except.ok () := by
        simpa [callResult] using hpre (Call.writeConfig chipOptionsWriteCall) (by decide)
      have hkey : env.writeResult keyConfigWriteCall = Except.ok () := by
        simpa [callResult] using hpre (Call.writeConfig keyConfigWriteCall) (by decide)
      have hfail' : env.lockResult Zone.Config = Except.error e := by
        have hg : plannedConfigCalls.getD 10 (Call.lock Zone.Config) =
            Call.lock Zone.Config := by decide
        rw [hg] at hfail
        simpa [callResult] using hfail
      simp only [TrustAndGo.configPhase, TrustAndGo.configure_permissions,
        TrustAndGo.configure_chip_options, TrustAndGo.configure_key_types,
        hperm, hchip, hkey, hfail']
      simp only [Prod.mk.injEq]
      exact ⟨trivial, by decide⟩

theorem tryFrom_unlocked_split (env : Env) (debugAssertions : Bool)
    (h : env.isLockedResult Zone.Config = Except.ok false) :
    (∀ e, (TrustAndGo.configPhase env).1 = Except.error e →
      TrustAndGo.tryFrom env debugAssertions =
        (Except.error e, Call.isLocked Zone.Config :: (TrustAndGo.configPhase env).2)) ∧
    ((TrustAndGo.configPhase env).1 = Except.ok () →
      ∃ tail, (TrustAndGo.tryFrom env debugAssertions).2 =
        Call.isLocked Zone.Config :: (TrustAndGo.configPhase env).2 ++ tail) := by
  constructor
  · intro e he
    simp [TrustAndGo.tryFrom, h, he]
  · intro hok
    cases hd : env.isLockedResult Zone.Data with
    | error e2 =>
      exact ⟨[Call.isLocked Zone.Data], by simp [TrustAndGo.tryFrom, h, hok, hd]⟩
    | ok d =>
      by_cases hcond : d = false ∧ debugAssertions = false
      · obtain ⟨hd0, hdbg⟩ := hcond
        subst hd0; subst hdbg
        cases hl : env.lockResult Zone.Data with
        | error e3 =>
          exact ⟨[Call.isLocked Zone.Data, Call.lock Zone.Data],
            by simp [TrustAndGo.tryFrom, h, hok, hd, hl]⟩
        | ok u =>
          exact ⟨[Call.isLocked Zone.Data, Call.lock Zone.Data],
            by simp [TrustAndGo.tryFrom, h, hok, hd, hl]⟩
      · exact ⟨[Call.isLocked Zone.Data],
          by simp [TrustAndGo.tryFrom, h, hok, hd, hcond]⟩

/-- Claim C3: whenever the Config-zone lock query reports locked, running
`TrustAndGo::try_from` issues zero `write_config` calls and zero Config-zone
lock commands to the memory collaborator — re-running provisioning against
an already-locked Config zone is an idempotent no-op. -/
theorem tryFrom_locked_config_noop (env : Env) (debugAssertions : Bool)
    (h : env.isLockedResult Zone.Config = Except.ok true) :
    (TrustAndGo.tryFrom env debugAssertions).2.countP isWriteCall = 0 ∧
    (TrustAndGo.tryFrom env debugAssertions).2.countP isConfigLockCall = 0 := by
  cases hd : env.isLockedResult Zone.Data with
  | error e =>
    simp [TrustAndGo.tryFrom, h, hd, isWriteCall, isConfigLockCall]
  | ok d =>
    cases d with
    | true =>
      cases debugAssertions with
      | true => simp [TrustAndGo.tryFrom, h, hd, isWriteCall, isConfigLockCall]
      | false => simp [TrustAndGo.tryFrom, h, hd, isWriteCall, isConfigLockCall]
    | false =>
      cases debugAssertions with
      | true => simp [TrustAndGo.tryFrom, h, hd, isWriteCall, isConfigLockCall]
      | false =>
        cases hl : env.lockResult Zone.Data with
        | error e =>
          simp [TrustAndGo.tryFrom, h, hd, hl, isWriteCall, isConfigLockCall]
        | ok u =>
          simp [TrustAndGo.tryFrom, h, hd, hl, isWriteCall, isConfigLockCall]

/-- Witness for claim C3 at a concrete collaborator whose Config zone
reports locked: the resulting trace holds no write and no Config lock. -/
theorem tryFrom_locked_config_noop_witness :
    envAllLocked.isLockedResult Zone.Config = Except.ok true ∧
    ((TrustAndGo.tryFrom envAllLocked true).2.countP isWriteCall = 0 ∧
     (TrustAndGo.tryFrom envAllLocked true).2.countP isConfigLockCall = 0) :=
  ⟨rfl, tryFrom_locked_config_noop envAllLocked true rfl⟩

/-- Claim C4: whenever the Config-zone lock query reports unlocked,
`TrustAndGo::try_from` runs the configuration phase, whose call trace is
always a prefix of the planned sequence (eight SlotConfig writes, the
chip-options write, the KeyConfig write, then the Config-zone lock, in
exactly that order); when every write response succeeds the full sequence is
issued; the overall trace starts with the Config lock query followed by the
configuration phase's calls; when the configuration phase fails the run
stops there with no later call; when every planned call succeeds the phase
succeeds with exactly the planned trace; and when the planned calls up to
position `j` succeed and the call at position `j` fails, the phase returns
that error and its trace is exactly the planned sequence truncated right
after the failing call — no later step of the sequence is executed. -/
theorem tryFrom_unlocked_config_order (env : Env) (debugAssertions : Bool)
    (h : env.isLockedResult Zone.Config = Except.ok false) :
    (∃ k ≤ plannedConfigCalls.length,
        (TrustAndGo.configPhase env).2 = plannedConfigCalls.take k) ∧
    ((∀ w ∈ slotConfigWriteCalls ++ [chipOptionsWriteCall, keyConfigWriteCall],
          env.writeResult w = Except.ok ()) →
        (TrustAndGo.configPhase env).2 = plannedConfigCalls) ∧
    ((TrustAndGo.tryFrom env debugAssertions).2.take
          (1 + (TrustAndGo.configPhase env).2.length) =
        Call.isLocked Zone.Config :: (TrustAndGo.configPhase env).2) ∧
    (∀ e, (TrustAndGo.configPhase env).1 = Except.error e →
        TrustAndGo.tryFrom env debugAssertions =
          (Except.error e, Call.isLocked Zone.Config :: (TrustAndGo.configPhase env).2)) ∧
    ((∀ c ∈ plannedConfigCalls, callResult env c = Except.ok ()) →
        TrustAndGo.configPhase env = (Except.ok (), plannedConfigCalls)) ∧
    (∀ j e, j < plannedConfigCalls.length →
        (∀ c ∈ plannedConfigCalls.take j, callResult env c = Except.ok ()) →
        callResult env (plannedConfigCalls.getD j (Call.lock Zone.Config)) =
          Except.error e →
        TrustAndGo.configPhase env =
          (Except.error e, plannedConfigCalls.take (j + 1))) := by
  refine ⟨configPhase_trace_take env, configPhase_all_writes_trace env, ?_,
    (tryFrom_unlocked_split env debugAssertions h).1, configPhase_success env,
    fun j e hj hp hf => configPhase_failure_stops env j e hj hp hf⟩
  cases hph : (TrustAndGo.configPhase env).1 with
  | error e =>
    rw [(tryFrom_unlocked_split env debugAssertions h).1 e hph]
    rw [Nat.add_comm, List.take_succ_cons, List.take_length]
  | ok u =>
    have hok : (TrustAndGo.configPhase env).1 = Except.ok () := by cases u; exact hph
    obtain ⟨tail, htail⟩ := (tryFrom_unlocked_split env debugAssertions h).2 hok
    rw [htail, Nat.add_comm, List.take_append_of_le_length (by simp),
      List.take_succ_cons, List.take_length]

/-- Witness for claim C4 at a concrete collaborator whose Config zone
reports unlocked and whose responses all succeed. -/
theorem tryFrom_unlocked_config_order_witness :
    envAllUnlocked.isLockedResult Zone.Config = Except.ok false ∧
    ((∃ k ≤ plannedConfigCalls.length,
        (TrustAndGo.configPhase envAllUnlocked).2 = plannedConfigCalls.take k) ∧
    ((∀ w ∈ slotConfigWriteCalls ++ [chipOptionsWriteCall, keyConfigWriteCall],
          envAllUnlocked.writeResult w = Except.ok ()) →
        (TrustAndGo.configPhase envAllUnlocked).2 = plannedConfigCalls) ∧
    ((TrustAndGo.tryFrom envAllUnlocked false).2.take
          (1 + (TrustAndGo.configPhase envAllUnlocked).2.length) =
        Call.isLocked Zone.Config :: (TrustAndGo.configPhase envAllUnlocked).2) ∧
    (∀ e, (TrustAndGo.configPhase envAllUnlocked).1 = Except.error e →
        TrustAndGo.tryFrom envAllUnlocked false =
          (Except.error e,
           Call.isLocked Zone.Config :: (TrustAndGo.configPhase envAllUnlocked).2)) ∧
    ((∀ c ∈ plannedConfigCalls, callResult envAllUnlocked c = Except.ok ()) →
        TrustAndGo.configPhase envAllUnlocked = (Except.ok (), plannedConfigCalls)) ∧
    (∀ j e, j < plannedConfigCalls.length →
        (∀ c ∈ plannedConfigCalls.take j, callResult envAllUnlocked c = Except.ok ()) →
        callResult envAllUnlocked (plannedConfigCalls.getD j (Call.lock Zone.Config)) =
          Except.error e →
        TrustAndGo.configPhase envAllUnlocked =
          (Except.error e, plannedConfigCalls.take (j + 1)))) :=
  ⟨rfl, tryFrom_unlocked_config_order envAllUnlocked false rfl⟩

/-- Claim C1 (code-bug evaluation): on the private-key-capable slot 0x00,
`Aes::encrypt` accepts a 15-byte plaintext and builds a packet — the `> 16`
length check lets payloads shorter than 16 bytes through, contradicting the
source's own comment that the input length should be exactly 16 bytes — while
a 17-byte plaintext is rejected with InvalidSize, `Aes::decrypt` rejects both
15 and 17 bytes with InvalidSize, and a slot that is not private-key-capable
is rejected with BadParam by both operations. -/
theorem aes_encrypt_accepts_short_payload :
    builtOk (Aes.encrypt Slot.PrivateKey00 (List.replicate 15 0)) = true ∧
    Aes.encrypt Slot.PrivateKey00 (List.replicate 17 0) =
      Except.error ErrorKind.InvalidSize ∧
    Aes.decrypt Slot.PrivateKey00 (List.replicate 15 0) =
      Except.error ErrorKind.InvalidSize ∧
    Aes.decrypt Slot.PrivateKey00 (List.replicate 17 0) =
      Except.error ErrorKind.InvalidSize ∧
    Aes.encrypt Slot.Certificate08 (List.replicate 16 0) =
      Except.error ErrorKind.BadParam ∧
    Aes.decrypt Slot.Certificate08 (List.replicate 16 0) =
      Except.error ErrorKind.BadParam := by
  decide

/-- Claim C2 counterexample: a 64-byte payload is rejected by `Sha::update`
with a BadParam error, not with the InvalidSize error the claim states. -/
theorem sha_update_error_kind_counterexample :
    Sha.update (List.replicate 64 0) = Except.error ErrorKind.BadParam ∧
    Sha.update (List.replicate 64 0) ≠ Except.error ErrorKind.InvalidSize := by
  decide

/-- Claim C2 (amended): `Sha::update` rejects every payload of 64 bytes or
more with a BadParam error and builds a packet for every payload of at most
63 bytes. -/
theorem sha_update_size_limit (data : List Nat) :
    (64 ≤ data.length → Sha.update data = Except.error ErrorKind.BadParam) ∧
    (data.length ≤ 63 → builtOk (Sha.update data) = true) := by
  constructor
  · intro h
    simp [Sha.update, h]
  · intro h
    have h64 : ¬ 64 ≤ data.length := by omega
    simp [Sha.update, builtOk, h64]

/-- Witness for claim C2's amended statement at the two boundary payloads:
64 bytes is rejected with BadParam, 63 bytes builds a packet. -/
theorem sha_update_size_limit_witness :
    Sha.update (List.replicate 64 0) = Except.error ErrorKind.BadParam ∧
    builtOk (Sha.update (List.replicate 63 0)) = true :=
  ⟨(sha_update_size_limit (List.replicate 64 0)).1 (by simp),
   (sha_update_size_limit (List.replicate 63 0)).2 (by simp)⟩

/-- Claim C5: in both shipped SlotConfig tables (the TrustAndGo table and
the diagnostic tool's copy), every slot whose encrypt-read bit (bit 6 of its
little-endian 16-bit word) is set also has its is-secret bit (bit 7) set;
likewise through the driver's own `Provision` accessors. -/
theorem slot_config_encrypt_read_implies_secret (i : Nat) (h : i < 16) :
    ((decodeSlotConfig (leWord TNG_TLS_SLOT_CONFIG_DATA i)).encryptRead = 1 →
      (decodeSlotConfig (leWord TNG_TLS_SLOT_CONFIG_DATA i)).isSecret = 1) ∧
    ((decodeSlotConfig (leWord SLOT_CONFIG_DATA i)).encryptRead = 1 →
      (decodeSlotConfig (leWord SLOT_CONFIG_DATA i)).isSecret = 1) ∧
    ((Provision.new i).encrypt_read = true → (Provision.new i).is_secret = true) := by
  revert h
  revert i
  decide

/-- Witness for claim C5 at slot 0x09, the AES key slot. -/
theorem slot_config_encrypt_read_implies_secret_witness :
    9 < 16 ∧
    (((decodeSlotConfig (leWord TNG_TLS_SLOT_CONFIG_DATA 9)).encryptRead = 1 →
      (decodeSlotConfig (leWord TNG_TLS_SLOT_CONFIG_DATA 9)).isSecret = 1) ∧
    ((decodeSlotConfig (leWord SLOT_CONFIG_DATA 9)).encryptRead = 1 →
      (decodeSlotConfig (leWord SLOT_CONFIG_DATA 9)).isSecret = 1) ∧
    ((Provision.new 9).encrypt_read = true → (Provision.new 9).is_secret = true)) :=
  ⟨by decide, slot_config_encrypt_read_implies_secret 9 (by decide)⟩

/-- Claim C6 counterexample: for slot 0x09 (SlotConfig bytes 0x8f, 0x0f,
little-endian word 0x0f8f) the encrypt-read bit is 0 — not 1 as the claim
states — and the write permission the code classifies (from write-config
alone) is exactly "Clear text", which the claim says must be excluded;
the source's own provision test asserts this "Clear text" classification. -/
theorem aes_slot_decode_counterexample :
    (Provision.new 9).encrypt_read = false ∧
    (Provision.new 9).write_permission = some "Clear text" := by
  decide

/-- Claim C6 (amended): slot 0x09 (SlotConfig bytes 0x8f, 0x0f) decodes to
is-secret = true, encrypt-read = false and write-config = 0x00; the code
classifies its read permission as "Never" and its write permission, which it
derives from write-config alone, as "Clear text". -/
theorem aes_slot_decode :
    (Provision.new 9).is_secret = true ∧
    (Provision.new 9).encrypt_read = false ∧
    (Provision.new 9).write_config = 0x00 ∧
    (Provision.new 9).read_permission = some "Never" ∧
    (Provision.new 9).write_permission = some "Clear text" := by
  decide

/-- Claim C7 counterexample: slot 0x00 decodes to read-key 0x05, whose bit 1
(internal signatures) is 0, refuting the claim that bit 1 is set. -/
theorem primary_key_read_key_counterexample :
    (Provision.new 0).read_key = 0x05 ∧
    ((Provision.new 0).read_key >>> 1) &&& 1 = 0 := by
  decide

/-- Claim C7 (amended): slot 0x00 (SlotConfig bytes 0x85, 0x00; KeyConfig
bytes 0x53, 0x00) decodes to read-key 0x05 with bit 0 (external signatures)
set, bit 1 (internal signatures) clear and bit 2 (ECDH) set, and its
KeyConfig decodes to private = true with key-type P256 (value 4). -/
theorem primary_key_decode :
    (Provision.new 0).read_key = 0x05 ∧
    (Provision.new 0).read_key &&& 1 = 1 ∧
    ((Provision.new 0).read_key >>> 1) &&& 1 = 0 ∧
    ((Provision.new 0).read_key >>> 2) &&& 1 = 1 ∧
    (Provision.new 0).is_private = true ∧
    (Provision.new 0).key_type = 4 := by
  decide

/-- Claim C8: `execution_time` returns the fixed table entry for every
opcode with published timing — in particular Ecdh gives 172/75/531 ms and
SelfTest gives 625/250/2324 ms at dividers 0/1/2 — and returns none exactly
for the two opcodes with no published timing, HMac and Pause. -/
theorem execution_time_table :
    OpCode.execution_time OpCode.Ecdh ClockDivider.Zero = some 172 ∧
    OpCode.execution_time OpCode.Ecdh ClockDivider.One = some 75 ∧
    OpCode.execution_time OpCode.Ecdh ClockDivider.Two = some 531 ∧
    OpCode.execution_time OpCode.SelfTest ClockDivider.Zero = some 625 ∧
    OpCode.execution_time OpCode.SelfTest ClockDivider.One = some 250 ∧
    OpCode.execution_time OpCode.SelfTest ClockDivider.Two = some 2324 ∧
    ∀ op div, (OpCode.execution_time op div = none ↔
      (op = OpCode.HMac ∨ op = OpCode.Pause)) := by
  decide

/-- Claim C9: for each of the 16 slots, decoding the SlotConfig word and the
KeyConfig word into their named fields and re-encoding the fields yields the
original 16-bit value, over the TrustAndGo tables and the diagnostic tool's
tables alike. -/
theorem config_words_roundtrip (i : Nat) (h : i < 16) :
    encodeSlotConfig (decodeSlotConfig (leWord TNG_TLS_SLOT_CONFIG_DATA i)) =
        leWord TNG_TLS_SLOT_CONFIG_DATA i ∧
    encodeKeyConfig (decodeKeyConfig (leWord TNG_TLS_KEY_CONFIG_DATA i)) =
        leWord TNG_TLS_KEY_CONFIG_DATA i ∧
    encodeSlotConfig (decodeSlotConfig (leWord SLOT_CONFIG_DATA i)) =
        leWord SLOT_CONFIG_DATA i ∧
    encodeKeyConfig (decodeKeyConfig (leWord KEY_CONFIG_DATA i)) =
        leWord KEY_CONFIG_DATA i := by
  revert h
  revert i
  decide

/-- Witness for claim C9 at slot 0x00. -/
theorem config_words_roundtrip_witness :
    0 < 16 ∧
    (encodeSlotConfig (decodeSlotConfig (leWord TNG_TLS_SLOT_CONFIG_DATA 0)) =
        leWord TNG_TLS_SLOT_CONFIG_DATA 0 ∧
    encodeKeyConfig (decodeKeyConfig (leWord TNG_TLS_KEY_CONFIG_DATA 0)) =
        leWord TNG_TLS_KEY_CONFIG_DATA 0 ∧
    encodeSlotConfig (decodeSlotConfig (leWord SLOT_CONFIG_DATA 0)) =
        leWord SLOT_CONFIG_DATA 0 ∧
    encodeKeyConfig (decodeKeyConfig (leWord KEY_CONFIG_DATA 0)) =
        leWord KEY_CONFIG_DATA 0) :=
  ⟨by decide, config_words_roundtrip 0 (by decide)⟩

/-- Claim C10: `Serial::try_from` never returns a parsed serial value — a
buffer of 9 or more bytes is rejected with a BadParam error, and every
shorter buffer makes the conversion panic, so the success branch is
unreachable. -/
theorem serial_try_from_never_succeeds (buffer : List Nat) :
    (∀ v, Serial.tryFrom buffer ≠ SerialOutcome.ok v) ∧
    (9 ≤ buffer.length → Serial.tryFrom buffer = SerialOutcome.err ErrorKind.BadParam) ∧
    (buffer.length < 9 → Serial.tryFrom buffer = SerialOutcome.panicked) := by
  refine ⟨?_, ?_, ?_⟩
  · intro v
    simp only [Serial.tryFrom]
    split_ifs <;> simp
  · intro h
    simp [Serial.tryFrom, h]
  · intro h
    have h9 : ¬ 9 ≤ buffer.length := by omega
    simp only [Serial.tryFrom, if_neg h9]
    split_ifs <;> rfl

/-- Witness for claim C10 at a 9-byte buffer (BadParam), the empty buffer
(panic) and a 4-byte buffer (never a success value). -/
theorem serial_try_from_never_succeeds_witness :
    Serial.tryFrom (List.replicate 9 0) = SerialOutcome.err ErrorKind.BadParam ∧
    Serial.tryFrom [] = SerialOutcome.panicked ∧
    (∀ v, Serial.tryFrom [1, 2, 3, 4] ≠ SerialOutcome.ok v) :=
  ⟨(serial_try_from_never_succeeds (List.replicate 9 0)).2.1 (by simp),
   (serial_try_from_never_succeeds []).2.2 (by simp),
   (serial_try_from_never_succeeds [1, 2, 3, 4]).1⟩
